import Mathlib

/-!
Verification of the Canopy RPC runtime and IDL code generator against its
natural-language specification.  Each definition below is a shallow embedding
of a function from the repository's C++ sources; the file ends with one
theorem per specification claim.
-/

set_option maxHeartbeats 1000000
set_option maxRecDepth 8000

namespace Canopy

/-! ## Casting interface and zone comparison (src/rpc/src/casting_interface.cpp) -/

/-- Embedding of `rpc::service_proxy` restricted to what `casting_interface`
observes: `get_zone_id()` returns the owning zone id (a 64-bit integer,
modelled as `Nat` since only equality is used). -/
structure service_proxy where
  zone_id : Nat
deriving DecidableEq

/-- Embedding of `rpc::object_proxy` as observed by `casting_interface`:
`get_service_proxy()` may return null, modelled as `Option`. -/
structure object_proxy where
  object_id : Nat
  service_proxy_ptr : Option service_proxy
deriving DecidableEq

/-- Embedding of `rpc::casting_interface`: `is_local()` plus
`get_object_proxy()`, which may return null. -/
structure casting_interface where
  is_local : Bool
  object_proxy_ptr : Option object_proxy
deriving DecidableEq

/-- Embedding of `casting_interface::get_service_proxy` (casting_interface.cpp:
returns null when the object proxy is null, otherwise the proxy's service
proxy). -/
def get_service_proxy (iface : casting_interface) : Option service_proxy :=
  match iface.object_proxy_ptr with
  | none => none
  | some obj => obj.service_proxy_ptr

/-- Embedding of `casting_interface::get_zone` (casting_interface.cpp: returns
zone `{0}` when the service proxy is null, otherwise its zone id). -/
def get_zone (iface : casting_interface) : Nat :=
  match get_service_proxy iface with
  | none => 0
  | some proxy => proxy.zone_id

/-- Embedding of `rpc::are_in_same_zone` (casting_interface.cpp lines 10-22).
Null pointers are modelled by `Option`. -/
def are_in_same_zone (first second : Option casting_interface) : Bool :=
  match first, second with
  | none, _ => true
  | some _, none => true
  | some f, some s =>
    if f.is_local || s.is_local then true
    else get_zone f == get_zone s

/-! ## Encoding registry and serialiser dispatch
(src/rpc/include/rpc/internal/serialiser.h) -/

/-- Modelled from the spec: the `rpc::encoding` enumeration.  Its definition is
not under src/ (serialiser.h only uses the enumerators); the spec's encoding
registry enumerates `yas_json`, `yas_binary`, `yas_compressed_binary`,
`protocol_buffers`, and possibly further values.  The `other` constructor
stands for any value of the underlying integer type distinct from the four
named enumerators. -/
inductive encoding where
  | yas_json
  | yas_binary
  | yas_compressed_binary
  | protocol_buffers
  | other (val : Nat)
deriving DecidableEq

/-- The per-encoding encoder and decoder templates that `rpc::serialise` and
`rpc::deserialise` dispatch to (`to_yas_json`, `from_yas_json`, ...).  Their
bodies call the external YAS library or the generated `protobuf_serialise`
member, which are not part of the dispatch logic under verification, so they
are held abstractly as fields.  A decoder returns the error string produced by
`from_*` (empty on success) together with the written-to object, mirroring the
C++ out-parameter. -/
structure serialiser_family (α : Type) where
  to_yas_json : α → List Nat
  to_yas_binary : α → List Nat
  to_compressed_yas_binary : α → List Nat
  to_protobuf : α → List Nat
  from_yas_json : List Nat → α → String × α
  from_yas_binary : List Nat → α → String × α
  from_yas_compressed_binary : List Nat → α → String × α
  from_protobuf : List Nat → α → String × α

/-- Embedding of `rpc::serialise` (serialiser.h lines 234-245): dispatch on the
encoding; an unmatched value throws `std::runtime_error("invalid encoding
type")`, modelled as `Except.error`. -/
def serialise {α : Type} (fam : serialiser_family α) (obj : α) (enc : encoding) :
    Except String (List Nat) :=
  match enc with
  | .yas_json => .ok (fam.to_yas_json obj)
  | .yas_binary => .ok (fam.to_yas_binary obj)
  | .yas_compressed_binary => .ok (fam.to_compressed_yas_binary obj)
  | .protocol_buffers => .ok (fam.to_protobuf obj)
  | .other _ => .error "invalid encoding type"

/-- Embedding of `rpc::deserialise` (serialiser.h lines 354-365): dispatch on
the encoding; an unmatched value returns the error string "invalid encoding
type" and leaves the target object untouched. -/
def deserialise {α : Type} (fam : serialiser_family α) (enc : encoding)
    (data : List Nat) (obj : α) : String × α :=
  match enc with
  | .yas_json => fam.from_yas_json data obj
  | .yas_binary => fam.from_yas_binary data obj
  | .yas_compressed_binary => fam.from_yas_compressed_binary data obj
  | .protocol_buffers => fam.from_protobuf data obj
  | .other _ => ("invalid encoding type", obj)

/-- A serialiser family round-trips when each of its four decoder functions
restores exactly the value its encoder saved, reporting success (empty error
string). -/
def round_trips {α : Type} (fam : serialiser_family α) : Prop :=
  (∀ obj dflt, fam.from_yas_json (fam.to_yas_json obj) dflt = ("", obj))
  ∧ (∀ obj dflt, fam.from_yas_binary (fam.to_yas_binary obj) dflt = ("", obj))
  ∧ (∀ obj dflt, fam.from_yas_compressed_binary (fam.to_compressed_yas_binary obj) dflt = ("", obj))
  ∧ (∀ obj dflt, fam.from_protobuf (fam.to_protobuf obj) dflt = ("", obj))

/-- An encoding value is one of the four supported enumerators. -/
def is_known_encoding : encoding → Bool
  | .other _ => false
  | _ => true

/-! ## Protobuf bytes helpers
(src/rpc/include/rpc/serialization/protobuf/protobuf.h) -/

/-- Value of a `char` (signed 8-bit, two's complement) holding the bit pattern
of the byte `b`, as produced by the `reinterpret_cast<const char*>` in
`serialize_bytes`. -/
def byte_to_char (b : Fin 256) : Int :=
  if (b : Nat) < 128 then ((b : Nat) : Int) else ((b : Nat) : Int) - 256

/-- Value of the `uint8_t` obtained by converting the `char` value `c` back,
as done by `std::vector<uint8_t>::assign` in `deserialize_bytes` (conversion
to unsigned is reduction modulo 256). -/
def char_to_byte (c : Int) : Fin 256 :=
  ⟨(c % 256).toNat, by
    have h0 : (0 : Int) ≤ c % 256 := Int.emod_nonneg c (by norm_num)
    have h1 : c % 256 < 256 := Int.emod_lt_of_pos c (by norm_num)
    omega⟩

/-- Embedding of `rpc::serialization::protobuf::serialize_bytes` (protobuf.h
lines 27-30): copy the byte vector into a `std::string` of `char`s. -/
def serialize_bytes (data : List (Fin 256)) : List Int :=
  data.map byte_to_char

/-- Embedding of `rpc::serialization::protobuf::deserialize_bytes` (protobuf.h
lines 33-36): copy the string's `char`s back into a byte vector. -/
def deserialize_bytes (proto_bytes : List Int) : List (Fin 256) :=
  proto_bytes.map char_to_byte

/-! ## Transport operation signatures
(src/transports/sgx/src/host_service_proxy.h lines 27-69) -/

/-- A C++ parameter: its declared type text and its name. -/
structure cpp_param where
  type_text : String
  param_name : String
deriving DecidableEq

/-- A C++ member function signature: name, return type text, parameters in
order. -/
structure op_signature where
  op_name : String
  return_type : String
  params : List cpp_param
deriving DecidableEq

/-- Signature of `host_service_proxy::send`. -/
def send_signature : op_signature :=
  { op_name := "send"
    return_type := "int"
    params := [⟨"uint64_t", "protocol_version"⟩,
               ⟨"encoding", "encoding"⟩,
               ⟨"uint64_t", "tag"⟩,
               ⟨"caller_zone", "caller_zone_id"⟩,
               ⟨"destination_zone", "destination_zone_id"⟩,
               ⟨"object", "object_id"⟩,
               ⟨"interface_ordinal", "interface_id"⟩,
               ⟨"method", "method_id"⟩,
               ⟨"const rpc::span&", "in_data"⟩,
               ⟨"std::vector<char>&", "out_buf_"⟩,
               ⟨"const std::vector<rpc::back_channel_entry>&", "in_back_channel"⟩,
               ⟨"std::vector<rpc::back_channel_entry>&", "out_back_channel"⟩] }

/-- Signature of `host_service_proxy::post`. -/
def post_signature : op_signature :=
  { op_name := "post"
    return_type := "void"
    params := [⟨"uint64_t", "protocol_version"⟩,
               ⟨"encoding", "encoding"⟩,
               ⟨"uint64_t", "tag"⟩,
               ⟨"caller_zone", "caller_zone_id"⟩,
               ⟨"destination_zone", "destination_zone_id"⟩,
               ⟨"object", "object_id"⟩,
               ⟨"interface_ordinal", "interface_id"⟩,
               ⟨"method", "method_id"⟩,
               ⟨"const rpc::span&", "in_data"⟩,
               ⟨"const std::vector<rpc::back_channel_entry>&", "in_back_channel"⟩] }

/-- Signature of `host_service_proxy::try_cast`. -/
def try_cast_signature : op_signature :=
  { op_name := "try_cast"
    return_type := "int"
    params := [⟨"uint64_t", "protocol_version"⟩,
               ⟨"destination_zone", "destination_zone_id"⟩,
               ⟨"object", "object_id"⟩,
               ⟨"interface_ordinal", "interface_id"⟩,
               ⟨"const std::vector<rpc::back_channel_entry>&", "in_back_channel"⟩,
               ⟨"std::vector<rpc::back_channel_entry>&", "out_back_channel"⟩] }

/-- Signature of `host_service_proxy::add_ref`. -/
def add_ref_signature : op_signature :=
  { op_name := "add_ref"
    return_type := "int"
    params := [⟨"uint64_t", "protocol_version"⟩,
               ⟨"destination_zone", "destination_zone_id"⟩,
               ⟨"object", "object_id"⟩,
               ⟨"caller_zone", "caller_zone_id"⟩,
               ⟨"known_direction_zone", "known_direction_zone_id"⟩,
               ⟨"add_ref_options", "build_out_param_channel"⟩,
               ⟨"const std::vector<rpc::back_channel_entry>&", "in_back_channel"⟩,
               ⟨"std::vector<rpc::back_channel_entry>&", "out_back_channel"⟩] }

/-- Signature of `host_service_proxy::release`. -/
def release_signature : op_signature :=
  { op_name := "release"
    return_type := "int"
    params := [⟨"uint64_t", "protocol_version"⟩,
               ⟨"destination_zone", "destination_zone_id"⟩,
               ⟨"object", "object_id"⟩,
               ⟨"caller_zone", "caller_zone_id"⟩,
               ⟨"rpc::release_options", "options"⟩,
               ⟨"const std::vector<rpc::back_channel_entry>&", "in_back_channel"⟩,
               ⟨"std::vector<rpc::back_channel_entry>&", "out_back_channel"⟩] }

/-- The five transport operations of the service proxy, in declaration
order. -/
def host_service_proxy_ops : List op_signature :=
  [send_signature, post_signature, try_cast_signature, add_ref_signature, release_signature]

/-- Whether an operation has a parameter with the given name. -/
def takes_param_named (s : op_signature) (nm : String) : Bool :=
  s.params.any fun p => p.param_name == nm

/-- Whether an operation has a parameter with the given type text. -/
def takes_param_typed (s : op_signature) (ty : String) : Bool :=
  s.params.any fun p => p.type_text == ty

/-- Claim C1 as stated: every one of the five operations returns `int` and
takes a `protocol_version` parameter and an `encoding` parameter. -/
def claim_C1 : Prop :=
  ∀ op ∈ host_service_proxy_ops,
    op.return_type = "int"
    ∧ takes_param_named op "protocol_version" = true
    ∧ takes_param_typed op "encoding" = true

/-! ## Generator main: write-if-different logic (src/generator/src/main.cpp) -/

/-- The NUL character appended to every generated stream by `stream << ends`
before comparison, and used as the delimiter when reading existing files with
`std::getline(stream, data, a NUL char)`. -/
def nul_char : Char := Char.ofNat 0

/-- Embedding of `is_different` (main.cpp lines 54-65).  `stream_str` is the
full stream contents (including the trailing NUL from `<< ends`), `data` is
the existing file contents as read by getline (up to the first NUL).  When the
stream is non-empty its last character is stripped (`substr(0, length - 1)`)
before the comparison. -/
def is_different (stream_str data : List Char) : Bool :=
  if stream_str.isEmpty then
    if data.isEmpty then true else false
  else
    stream_str.dropLast != data

/-- Decision taken for the interface header, proxy, stub, stub header, YAS,
protobuf C++ and JSON-schema artifacts (main.cpp lines 327-346, 399-403,
485-489, 520-524): the generated stream, terminated by `<< ends`, is compared
with the existing contents through `is_different`. -/
def writes_main_artifact (generated existing : List Char) : Bool :=
  is_different (generated ++ [nul_char]) existing

/-- Decision taken for the mock artifact (main.cpp lines 347-354): a direct
`interfaces_mock_data != mock_stream.str()` comparison, where the stream still
carries the trailing NUL from `<< ends` (line 323) but the file contents were
read only up to the first NUL. -/
def writes_mock_artifact (generated existing : List Char) : Bool :=
  existing != generated ++ [nul_char]

/-! ## Generator main: CLI exit behaviour (src/generator/src/main.cpp) -/

/-- The stream a diagnostic or informational message is printed on. -/
inductive out_channel where
  | standard_out
  | standard_error
deriving DecidableEq

/-- Exit code and message channel of one run of the generator CLI. -/
structure cli_outcome where
  exit_code : Int
  message : Option out_channel
deriving DecidableEq

/-- The control-flow events of `main` (main.cpp lines 67-534) that terminate a
run, in source order.  Each names the condition that fires. -/
inductive cli_event where
  | help_requested
  | argument_parse_error
  | idl_file_missing
  | preprocessor_load_failure
  | dump_preprocessor_requested
  | root_import_lib_nonempty
  | header_suffix_missing
  | internal_exception
  | success
deriving DecidableEq

/-- Embedding of the exit code and message channel `main` produces for each
terminating event: help prints the usage on cout and returns 0 (lines
110-114); a CLI parse error prints on cerr and returns 1 (lines 115-120); a
missing IDL file prints "Error file ... does not exist" on cout and returns -1
(lines 196-200); a preprocessor load failure prints on cerr and returns -1
(lines 212-216); dump_preprocessor prints the preprocessed text on cout and
returns 0 (lines 218-222); a root object with a non-empty import lib prints on
cout and returns -1 (lines 232-236); a header path without ".h" prints on cerr
and returns -1 (lines 361-366, 493-498); an escaping exception prints on cerr
and returns 1 (lines 527-531); otherwise main returns 0 (line 533). -/
def generator_main : cli_event → cli_outcome
  | .help_requested => ⟨0, some .standard_out⟩
  | .argument_parse_error => ⟨1, some .standard_error⟩
  | .idl_file_missing => ⟨-1, some .standard_out⟩
  | .preprocessor_load_failure => ⟨-1, some .standard_error⟩
  | .dump_preprocessor_requested => ⟨0, some .standard_out⟩
  | .root_import_lib_nonempty => ⟨-1, some .standard_out⟩
  | .header_suffix_missing => ⟨-1, some .standard_error⟩
  | .internal_exception => ⟨1, some .standard_error⟩
  | .success => ⟨0, none⟩

/-- The events that are parse or IO errors (as opposed to requested early
exits or success). -/
def is_error_event : cli_event → Bool
  | .argument_parse_error => true
  | .idl_file_missing => true
  | .preprocessor_load_failure => true
  | .root_import_lib_nonempty => true
  | .header_suffix_missing => true
  | .internal_exception => true
  | _ => false

/-- Claim C9 as stated: exit code 0 on success, and on every parse or IO error
a non-zero exit code with a diagnostic on the error stream. -/
def claim_C9 : Prop :=
  (generator_main .success).exit_code = 0
  ∧ ∀ e, is_error_event e = true →
      (generator_main e).exit_code ≠ 0
      ∧ (generator_main e).message = some .standard_error

/-! ## Protobuf generator: type projection and name sanitization
(src/generator/src/protobuf_generator.cpp) -/

/-- Character list of a string literal; C++ `std::string` values are modelled
as `List Char`. -/
abbrev cs (s : String) : List Char := s.data

/-- Embedding of `trim_whitespace` (protobuf_generator.cpp lines 125-132):
strips leading and trailing space characters (`find_first_not_of(' ')` /
`find_last_not_of(' ')`). -/
def trim_whitespace (s : List Char) : List Char :=
  ((s.dropWhile (· == ' ')).reverse.dropWhile (· == ' ')).reverse

/-- Bracket-matching scan of `extract_template_content` (lines 136-158) after
the opening angle bracket has been consumed: `depth` is the current bracket
count, `acc` the content collected so far; reaching the matching closing
bracket yields the content, running out of characters yields failure
(`npos`). -/
def template_scan : List Char → Nat → List Char → Option (List Char)
  | [], _, _ => none
  | c :: rest, depth, acc =>
    if c == '<' then template_scan rest (depth + 1) (acc ++ [c])
    else if c == '>' then
      if depth == 1 then some acc else template_scan rest (depth - 1) (acc ++ [c])
    else template_scan rest depth (acc ++ [c])

/-- Embedding of `extract_template_content` as used by every caller: callers
pass `type.find('<')` as the start position, so the scan starts at the first
angle bracket; when the type has no `<` the C++ call receives `npos` and
returns `npos`, modelled as `none`. -/
def extract_at_first_angle (ty : List Char) : Option (List Char) :=
  match ty.dropWhile (· != '<') with
  | '<' :: rest => template_scan rest 1 []
  | _ => none

/-- Top-level-comma scan of `split_template_args` (lines 162-180): the bracket
count is a C++ `int`, so it may go negative on unbalanced input. -/
def split_scan : List Char → Int → List Char → Option (List Char × List Char)
  | [], _, _ => none
  | c :: rest, depth, acc =>
    if c == '<' then split_scan rest (depth + 1) (acc ++ [c])
    else if c == '>' then split_scan rest (depth - 1) (acc ++ [c])
    else if c == ',' && depth == 0 then
      some (trim_whitespace acc, trim_whitespace rest)
    else split_scan rest depth (acc ++ [c])

/-- Embedding of `split_template_args` (lines 162-180): split at the first
top-level comma, trimming both parts. -/
def split_template_args (args : List Char) : Option (List Char × List Char) :=
  split_scan args 0 []

/-- Embedding of `is_map_type` (lines 184-202): prefix test for the three map
containers. -/
def is_map_type (ty : List Char) : Bool :=
  (cs "std::map<").isPrefixOf ty
  || (cs "std::unordered_map<").isPrefixOf ty
  || (cs "std::flat_map<").isPrefixOf ty

/-- Embedding of `is_sequence_type` (lines 205-218), returning the matched
container text (the C++ out-parameter) on success. -/
def sequence_container_of (ty : List Char) : Option (List Char) :=
  if (cs "std::vector<").isPrefixOf ty then some (cs "std::vector<")
  else if (cs "std::array<").isPrefixOf ty then some (cs "std::array<")
  else none

/-- Embedding of `cpp_scalar_to_proto_type` (lines 222-298): exact-text match
of scalar C++ types onto protobuf scalar types; unrecognized types yield the
empty string. -/
def cpp_scalar_to_proto_type (ty : List Char) : List Char :=
  if ty == cs "error_code" then cs "int32"
  else if ty == cs "int8_t" || ty == cs "signed char" then cs "int32"
  else if ty == cs "int16_t" || ty == cs "short" || ty == cs "short int"
      || ty == cs "signed short" || ty == cs "signed short int" then cs "int32"
  else if ty == cs "int32_t" || ty == cs "int" || ty == cs "signed int"
      || ty == cs "signed" then cs "int32"
  else if ty == cs "int64_t" || ty == cs "long" || ty == cs "long int"
      || ty == cs "signed long" || ty == cs "signed long int" || ty == cs "long long"
      || ty == cs "signed long long" || ty == cs "long long int"
      || ty == cs "signed long long int" then cs "int64"
  else if ty == cs "uint8_t" || ty == cs "unsigned char" then cs "uint32"
  else if ty == cs "uint16_t" || ty == cs "unsigned short"
      || ty == cs "unsigned short int" then cs "uint32"
  else if ty == cs "uint32_t" || ty == cs "unsigned int" || ty == cs "unsigned" then cs "uint32"
  else if ty == cs "uint64_t" || ty == cs "unsigned long" || ty == cs "unsigned long int"
      || ty == cs "unsigned long long" || ty == cs "unsigned long long int" then cs "uint64"
  else if ty == cs "size_t" then cs "uint64"
  else if ty == cs "ptrdiff_t" || ty == cs "ssize_t" || ty == cs "intptr_t" then cs "int64"
  else if ty == cs "uintptr_t" then cs "uint64"
  else if ty == cs "float" then cs "float"
  else if ty == cs "double" || ty == cs "long double" then cs "double"
  else if ty == cs "bool" then cs "bool"
  else if ty == cs "char" || ty == cs "wchar_t" || ty == cs "char16_t"
      || ty == cs "char32_t" then cs "int32"
  else if ty == cs "std::string" || ty == cs "string" then cs "string"
  else if ty == cs "char*" || ty == cs "const char*" || ty == cs "char *"
      || ty == cs "const char *" then cs "string"
  else []

/-- All type texts recognized by `cpp_scalar_to_proto_type`, in source
order. -/
def scalar_type_texts : List (List Char) :=
  [cs "error_code",
   cs "int8_t", cs "signed char",
   cs "int16_t", cs "short", cs "short int", cs "signed short", cs "signed short int",
   cs "int32_t", cs "int", cs "signed int", cs "signed",
   cs "int64_t", cs "long", cs "long int", cs "signed long", cs "signed long int",
   cs "long long", cs "signed long long", cs "long long int", cs "signed long long int",
   cs "uint8_t", cs "unsigned char",
   cs "uint16_t", cs "unsigned short", cs "unsigned short int",
   cs "uint32_t", cs "unsigned int", cs "unsigned",
   cs "uint64_t", cs "unsigned long", cs "unsigned long int",
   cs "unsigned long long", cs "unsigned long long int",
   cs "size_t", cs "ptrdiff_t", cs "ssize_t", cs "intptr_t", cs "uintptr_t",
   cs "float", cs "double", cs "long double",
   cs "bool",
   cs "char", cs "wchar_t", cs "char16_t", cs "char32_t",
   cs "std::string", cs "string",
   cs "char*", cs "const char*", cs "char *", cs "const char *"]

/-- ASCII model of `std::isalpha` in the default C locale. -/
def is_ascii_alpha (c : Char) : Bool :=
  ('a' ≤ c && c ≤ 'z') || ('A' ≤ c && c ≤ 'Z')

/-- ASCII model of `std::isalnum` in the default C locale. -/
def is_ascii_alnum (c : Char) : Bool :=
  is_ascii_alpha c || ('0' ≤ c && c ≤ '9')

/-- The sequential replace loop of `sanitize_type_name` (lines 454-459): each
occurrence of "::" found left to right is replaced by ".", resuming the search
after the inserted dot. -/
def replace_double_colon : List Char → List Char
  | [] => []
  | [c] => [c]
  | c1 :: c2 :: rest =>
    if c1 = ':' ∧ c2 = ':' then '.' :: replace_double_colon rest
    else c1 :: replace_double_colon (c2 :: rest)

/-- Embedding of `sanitize_type_name` (lines 448-473): replace "::" by ".",
prepend an underscore when the first character is neither a letter nor an
underscore, then replace every character that is not alphanumeric, underscore
or dot with an underscore. -/
def sanitize_type_name (type_name : List Char) : List Char :=
  let step1 := replace_double_colon type_name
  let step2 :=
    match step1 with
    | [] => step1
    | c :: _ => if !is_ascii_alpha c && c != '_' then '_' :: step1 else step1
  step2.map fun c => if !is_ascii_alnum c && c != '_' && c != '.' then '_' else c

/-- Embedding of `sanitize_field_name` (lines 476-492): replace every
character that is not alphanumeric or underscore with an underscore, then
prepend an underscore when the first character is neither a letter nor an
underscore. -/
def sanitize_field_name (field_name : List Char) : List Char :=
  let step1 := field_name.map fun c => if !is_ascii_alnum c && c != '_' then '_' else c
  match step1 with
  | [] => step1
  | c :: _ => if !is_ascii_alpha c && c != '_' then '_' :: step1 else step1

/-- One unfolding of `cpp_type_to_proto_type` (lines 301-445) with the
recursive occurrences abstracted as `recur`.  The body follows the source in
order: strip a leading "const ", record whether the text contains a pointer
declarator, cut at the first reference and pointer modifier, trim, and then
run through the pointer, byte-vector, map, sequence, interface-pointer,
scalar, template-instantiation and fallthrough cases. -/
def cpp_type_to_proto_type_step (recur : List Char → List Char) (cpp_type : List Char) :
    List Char :=
  let ty0 := if (cs "const ").isPrefixOf cpp_type then cpp_type.drop 6 else cpp_type
  let is_pointer := ty0.contains '*'
  let ty1 := ty0.takeWhile (· != '&')
  let ty2 := ty1.takeWhile (· != '*')
  let ty := trim_whitespace ty2
  if is_pointer then cs "uint64"
  else if ty == cs "std::vector<uint8_t>" || ty == cs "std::vector<unsigned char>"
      || ty == cs "std::vector<char>" || ty == cs "std::vector<signed char>" then
    cs "bytes"
  else if is_map_type ty then
    match extract_at_first_angle ty with
    | some inner_content =>
      match split_template_args inner_content with
      | some (key_type, value_type) =>
        cs "map<" ++ recur key_type ++ cs ", " ++ recur value_type ++ cs ">"
      | none => cs "map<string, string>"
    | none => cs "map<string, string>"
  else if (sequence_container_of ty).isSome then
    match extract_at_first_angle ty with
    | some inner_content =>
      if sequence_container_of ty == some (cs "std::array<") then
        match split_template_args inner_content with
        | some (element_type, _) => cs "repeated " ++ recur element_type
        | none => cs "repeated " ++ recur inner_content
      else cs "repeated " ++ recur inner_content
    | none => cs "repeated string"
  else if (cs "rpc::shared_ptr<").isPrefixOf ty || (cs "rpc::optimistic_ptr<").isPrefixOf ty then
    cs "rpc.interface_descriptor"
  else
    let scalar_type := cpp_scalar_to_proto_type ty
    if scalar_type != [] then scalar_type
    else if ty.contains '<' && ty.contains '>' then
      let template_name := ty.takeWhile (· != '<')
      match extract_at_first_angle ty with
      | some inner_content =>
        let sanitized_suffix :=
          if inner_content == cs "int" || inner_content == cs "int32_t" then cs "int"
          else if inner_content == cs "uint32_t" || inner_content == cs "unsigned int"
              || inner_content == cs "unsigned" then cs "uint"
          else if inner_content == cs "int64_t" || inner_content == cs "long"
              || inner_content == cs "long long" then cs "int64"
          else if inner_content == cs "uint64_t" || inner_content == cs "unsigned long"
              || inner_content == cs "unsigned long long" then cs "uint64"
          else if inner_content == cs "int16_t" || inner_content == cs "short" then cs "int16"
          else if inner_content == cs "uint16_t" || inner_content == cs "unsigned short" then
            cs "uint16"
          else if inner_content == cs "int8_t" || inner_content == cs "signed char" then cs "int8"
          else if inner_content == cs "uint8_t" || inner_content == cs "unsigned char" then
            cs "uint8"
          else if inner_content == cs "std::string" || inner_content == cs "string" then
            cs "string"
          else if inner_content == cs "float" then cs "float"
          else if inner_content == cs "double" then cs "double"
          else if inner_content == cs "bool" then cs "bool"
          else sanitize_type_name inner_content
        template_name ++ cs "_" ++ sanitized_suffix
      | none => ty
    else ty

/-- Fuel-indexed tying of the recursion of `cpp_type_to_proto_type`.  Every
recursive call of the source operates on a strict substring of its argument,
so any fuel of at least `length + 1` computes the function; fuel 0 is never
reached from `cpp_type_to_proto_type` below. -/
def cpp_type_to_proto_type_fuel : Nat → List Char → List Char
  | 0, _ => []
  | fuel + 1, cpp_type => cpp_type_to_proto_type_step (cpp_type_to_proto_type_fuel fuel) cpp_type

/-- Embedding of `cpp_type_to_proto_type` (lines 301-445) on character
lists. -/
def cpp_type_to_proto_type_chars (cpp_type : List Char) : List Char :=
  cpp_type_to_proto_type_fuel (cpp_type.length + 1) cpp_type

/-- Embedding of `cpp_type_to_proto_type` on strings. -/
def cpp_type_to_proto_type (cpp_type : String) : String :=
  ⟨cpp_type_to_proto_type_chars cpp_type.data⟩

/-- Embedding of `sanitize_type_name` on strings. -/
def sanitize_type_name_str (type_name : String) : String :=
  ⟨sanitize_type_name type_name.data⟩

/-- The four whole-type texts that the projection special-cases to the opaque
protobuf `bytes` type (lines 331-333). -/
def byte_vector_texts : List (List Char) :=
  [cs "std::vector<uint8_t>", cs "std::vector<unsigned char>",
   cs "std::vector<char>", cs "std::vector<signed char>"]

/-! ## Protobuf generator: enum emission
(src/generator/src/protobuf_generator.cpp lines 842-899 and 1035-1092; the two
sites are textually identical) -/

/-- One declared value of an IDL enum as the generator sees it: `get_name()`
and `get_return_type()`, the latter being the literal value text and empty for
an implicitly valued entry. -/
structure enum_value where
  name : String
  value_text : String
deriving DecidableEq

/-- The emission loop over the declared values (lines 878-895): each entry is
emitted as a `name = value;` pair; an entry without explicit value text
receives the current counter value, and only such entries advance the
counter. -/
def write_enum_values (enum_name : String) : List enum_value → Nat → List (String × String)
  | [], _ => []
  | v :: rest, counter =>
    let prefixed_name := enum_name ++ "_" ++ sanitize_type_name_str v.name
    if v.value_text == "" then
      (prefixed_name, toString counter) :: write_enum_values enum_name rest (counter + 1)
    else
      (prefixed_name, v.value_text) :: write_enum_values enum_name rest counter

/-- Embedding of the protobuf enum body emitted for one IDL enum (lines
842-899): the sanitized enum name, the zero-value scan, the conditional
injection of `<EnumName>_UNSPECIFIED = 0`, then the value emission loop with
counter 0.  Each emitted `name = value;` line is represented as the pair of
its two fields. -/
def protobuf_enum_entries (raw_name : String) (enum_vals : List enum_value) :
    List (String × String) :=
  let enum_name := sanitize_type_name_str raw_name
  let has_zero_value := enum_vals.any fun v => !(v.value_text == "") && v.value_text == "0"
  let inject_unspecified :=
    !has_zero_value && !enum_vals.isEmpty &&
      (match enum_vals.head? with
       | some first_val => !(first_val.value_text == "") && first_val.value_text != "0"
       | none => false)
  (if inject_unspecified then [(enum_name ++ "_UNSPECIFIED", "0")] else [])
    ++ write_enum_values enum_name enum_vals 0

/-- Accumulating value of a decimal digit string. -/
def digits_to_nat : List Char → Nat → Nat
  | [], acc => acc
  | c :: rest, acc => digits_to_nat rest (acc * 10 + (c.toNat - '0'.toNat))

/-- Integer denoted by a decimal literal with an optional leading minus
sign. -/
def literal_to_int (t : List Char) : Int :=
  match t with
  | '-' :: rest => - (digits_to_nat rest 0 : Int)
  | _ => (digits_to_nat t 0 : Int)

/-- Modelled from the spec: the original numeric values of an IDL enum's
declared entries under C++ enumerator semantics (the IDL parser front-end is
not under src/).  An explicit entry has the integer its decimal text denotes;
an implicit entry has the previous entry's value plus one, starting from 0. -/
def idl_enum_values : List enum_value → Int → List (String × Int)
  | [], _ => []
  | v :: rest, next =>
    let val := if v.value_text == "" then next else literal_to_int v.value_text.data
    (v.name, val) :: idl_enum_values rest (val + 1)

/-! ## Supporting lemmas -/

/-- Every byte round-trips through the signed-char representation used by the
protobuf bytes helpers. -/
lemma char_to_byte_byte_to_char : ∀ b : Fin 256, char_to_byte (byte_to_char b) = b := by
  decide

/-- Stripping the trailing NUL inserted by `<< ends` makes `is_different` a
plain content comparison for every artifact that goes through it. -/
lemma writes_main_artifact_eq (generated existing : List Char) :
    writes_main_artifact generated existing = (generated != existing) := by
  have hne : (generated ++ [nul_char]).isEmpty = false := by
    cases generated <;> simp [List.isEmpty]
  have hdrop : (generated ++ [nul_char]).dropLast = generated := by
    simp
  simp [writes_main_artifact, is_different, hne, hdrop]

/-- The replace loop keeps a non-empty string non-empty. -/
lemma replace_double_colon_ne_nil (s : List Char) (h : s ≠ []) :
    replace_double_colon s ≠ [] := by
  rcases s with _ | ⟨c1, _ | ⟨c2, rest⟩⟩
  · exact absurd rfl h
  · simp [replace_double_colon]
  · simp only [replace_double_colon]
    split <;> simp

/-- Completeness of the scalar table: a type text recognized by
`cpp_scalar_to_proto_type` is one of the listed texts. -/
lemma scalar_domain_complete (ty : List Char) (h : cpp_scalar_to_proto_type ty ≠ []) :
    ty ∈ scalar_type_texts := by
  by_contra hm
  apply h
  simp only [scalar_type_texts, List.mem_cons, List.not_mem_nil, or_false, not_or] at hm
  unfold cpp_scalar_to_proto_type
  simp_all

/-- Soundness of the scalar table: every listed text is recognized. -/
lemma scalar_domain_sound :
    scalar_type_texts.all (fun ty => cpp_scalar_to_proto_type ty != []) = true := by
  decide

/-- The pointer early-return of `cpp_type_to_proto_type`: whatever the
recursive occurrences do, a type text containing a pointer declarator is
projected to `uint64`. -/
lemma cpp_type_to_proto_type_step_pointer (recur : List Char → List Char)
    (l : List Char) (h : '*' ∈ l) :
    cpp_type_to_proto_type_step recur l = cs "uint64" := by
  by_cases hp : (cs "const ").isPrefixOf l = true
  · obtain ⟨t, ht⟩ := List.isPrefixOf_iff_prefix.mp hp
    have hmem : '*' ∈ t := by
      rw [← ht] at h
      rcases List.mem_append.mp h with hin | hin
      · exact absurd hin (by decide)
      · exact hin
    have hcont : (l.drop 6).contains '*' = true := by
      have hdrop : l.drop 6 = t := by
        rw [← ht]
        have h6 : (cs "const ").length = 6 := rfl
        rw [← h6]
        exact List.drop_left _ _
      rw [hdrop]
      exact List.elem_iff.mpr hmem
    simp only [cpp_type_to_proto_type_step]
    rw [if_pos hp, if_pos hcont]
  · have hcont : l.contains '*' = true := List.elem_iff.mpr h
    simp only [cpp_type_to_proto_type_step]
    rw [if_neg hp, if_pos hcont]

/-! ## Claim theorems -/

/-- C10: `are_in_same_zone(first, second)` returns true whenever either
argument is a null pointer (in particular for two unrelated null references),
true whenever either argument reports `is_local()`, and compares the two zone
ids for equality exactly when both arguments are non-null and non-local. -/
theorem C10_are_in_same_zone :
    (∀ s, are_in_same_zone none s = true)
    ∧ (∀ f, are_in_same_zone f none = true)
    ∧ are_in_same_zone none none = true
    ∧ (∀ f s, (f.is_local || s.is_local) = true →
        are_in_same_zone (some f) (some s) = true)
    ∧ (∀ f s, f.is_local = false → s.is_local = false →
        are_in_same_zone (some f) (some s) = (get_zone f == get_zone s)) := by
  refine ⟨fun s => rfl, fun f => ?_, rfl, fun f s h => ?_, fun f s h1 h2 => ?_⟩
  · cases f <;> rfl
  · simp [are_in_same_zone, h]
  · simp [are_in_same_zone, h1, h2]

/-- Witness for C10 at concrete interfaces: a local proxy pairs with anything,
and two non-local proxies compare zones. -/
theorem C10_witness :
    are_in_same_zone (some ⟨true, none⟩) (some ⟨false, none⟩) = true
    ∧ are_in_same_zone (some ⟨false, none⟩) (some ⟨false, some ⟨7, some ⟨3⟩⟩⟩)
      = (get_zone ⟨false, none⟩ == get_zone ⟨false, some ⟨7, some ⟨3⟩⟩⟩) :=
  ⟨C10_are_in_same_zone.2.2.2.1 ⟨true, none⟩ ⟨false, none⟩ (by decide),
   C10_are_in_same_zone.2.2.2.2 ⟨false, none⟩ ⟨false, some ⟨7, some ⟨3⟩⟩⟩ rfl rfl⟩

/-- C1 counterexample: the claim that all five transport operations return
`int` and take an `encoding` parameter fails on the code: `post` is declared
`void`, and `try_cast` has no `encoding` parameter. -/
theorem C1_counterexample :
    (post_signature ∈ host_service_proxy_ops ∧ post_signature.return_type = "void"
      ∧ takes_param_typed try_cast_signature "encoding" = false)
    ∧ ¬ claim_C1 := by
  constructor
  · exact ⟨by decide, rfl, by decide⟩
  · intro h
    have hpost := h post_signature (by decide)
    exact absurd hpost.1 (by decide)

/-- C1 amended: all five operations take a `protocol_version` parameter;
`send`, `try_cast`, `add_ref` and `release` return `int` while `post` returns
`void`; only `send` and `post` take an `encoding` parameter. -/
theorem C1_amended_signatures :
    host_service_proxy_ops.all (fun op => takes_param_named op "protocol_version") = true
    ∧ send_signature.return_type = "int"
    ∧ try_cast_signature.return_type = "int"
    ∧ add_ref_signature.return_type = "int"
    ∧ release_signature.return_type = "int"
    ∧ post_signature.return_type = "void"
    ∧ takes_param_typed send_signature "encoding" = true
    ∧ takes_param_typed post_signature "encoding" = true
    ∧ takes_param_typed try_cast_signature "encoding" = false
    ∧ takes_param_typed add_ref_signature "encoding" = false
    ∧ takes_param_typed release_signature "encoding" = false := by
  decide

/-- C3: for every encoding value other than the four known ones, the generic
entry points fail the call — `serialise` throws and `deserialise` reports the
error string — without invoking any encoder and without modifying the target
object; each of the four known encodings dispatches to that encoding's
serializer and deserializer. -/
theorem C3_dispatch_and_invalid_encoding :
    ∀ (α : Type) (fam : serialiser_family α) (obj dflt : α) (data : List Nat) (n : Nat),
      serialise fam obj (.other n) = .error "invalid encoding type"
      ∧ deserialise fam (.other n) data dflt = ("invalid encoding type", dflt)
      ∧ serialise fam obj .yas_json = .ok (fam.to_yas_json obj)
      ∧ serialise fam obj .yas_binary = .ok (fam.to_yas_binary obj)
      ∧ serialise fam obj .yas_compressed_binary = .ok (fam.to_compressed_yas_binary obj)
      ∧ serialise fam obj .protocol_buffers = .ok (fam.to_protobuf obj)
      ∧ deserialise fam .yas_json data dflt = fam.from_yas_json data dflt
      ∧ deserialise fam .yas_binary data dflt = fam.from_yas_binary data dflt
      ∧ deserialise fam .yas_compressed_binary data dflt = fam.from_yas_compressed_binary data dflt
      ∧ deserialise fam .protocol_buffers data dflt = fam.from_protobuf data dflt := by
  intro α fam obj dflt data n
  exact ⟨rfl, rfl, rfl, rfl, rfl, rfl, rfl, rfl, rfl, rfl⟩

/-- C2: the protobuf bytes helpers restore every byte vector exactly, and the
generic dispatch preserves the round trip of each encoding's serializer pair
for all four supported encodings. -/
theorem C2_serialisation_round_trip :
    (∀ v : List (Fin 256), deserialize_bytes (serialize_bytes v) = v)
    ∧ (∀ (α : Type) (fam : serialiser_family α), round_trips fam →
        ∀ (obj dflt : α) (enc : encoding), is_known_encoding enc = true →
          ∃ blob, serialise fam obj enc = .ok blob
            ∧ deserialise fam enc blob dflt = ("", obj)) := by
  constructor
  · intro v
    induction v with
    | nil => rfl
    | cons b rest ih =>
      simp [serialize_bytes, deserialize_bytes] at ih ⊢
      exact ⟨char_to_byte_byte_to_char b, ih⟩
  · intro α fam h obj dflt enc henc
    obtain ⟨h1, h2, h3, h4⟩ := h
    cases enc with
    | yas_json => exact ⟨_, rfl, h1 obj dflt⟩
    | yas_binary => exact ⟨_, rfl, h2 obj dflt⟩
    | yas_compressed_binary => exact ⟨_, rfl, h3 obj dflt⟩
    | protocol_buffers => exact ⟨_, rfl, h4 obj dflt⟩
    | other n => exact absurd henc (by simp [is_known_encoding])

/-- A serialiser family used to witness C2: each encoder stores the number in
a one-element blob and each decoder reads it back. -/
def identity_family : serialiser_family Nat :=
  { to_yas_json := fun n => [n]
    to_yas_binary := fun n => [n]
    to_compressed_yas_binary := fun n => [n]
    to_protobuf := fun n => [n]
    from_yas_json := fun l d => match l with | [n] => ("", n) | _ => ("error", d)
    from_yas_binary := fun l d => match l with | [n] => ("", n) | _ => ("error", d)
    from_yas_compressed_binary := fun l d => match l with | [n] => ("", n) | _ => ("error", d)
    from_protobuf := fun l d => match l with | [n] => ("", n) | _ => ("error", d) }

/-- Witness for C2 at a concrete serialiser family, value and encoding. -/
theorem C2_witness :
    ∃ blob, serialise identity_family 42 .protocol_buffers = .ok blob
      ∧ deserialise identity_family .protocol_buffers blob 0 = ("", 42) :=
  C2_serialisation_round_trip.2 Nat identity_family
    ⟨fun _ _ => rfl, fun _ _ => rfl, fun _ _ => rfl, fun _ _ => rfl⟩ 42 0
    .protocol_buffers rfl

/-- C4: the seven artifacts compared through `is_different` are rewritten
exactly when the generated content differs, but the mock artifact is compared
against its stream including the trailing NUL terminator, so it is rewritten
even when the content is identical. -/
theorem C4_mock_always_rewritten :
    (∀ generated existing : List Char,
      writes_main_artifact generated existing = (generated != existing))
    ∧ writes_mock_artifact (cs "identical mock content") (cs "identical mock content") = true
    ∧ writes_main_artifact (cs "identical mock content") (cs "identical mock content") = false := by
  refine ⟨writes_main_artifact_eq, by decide, by decide⟩

/-- C9 counterexample: a missing input IDL file makes `main` print its
diagnostic on standard output, not the error stream, refuting the claim that
every parse or IO error is reported on the error stream. -/
theorem C9_counterexample :
    ((generator_main .idl_file_missing).message = some .standard_out
      ∧ (generator_main .idl_file_missing).message ≠ some .standard_error)
    ∧ ¬ claim_C9 := by
  refine ⟨⟨rfl, by decide⟩, fun h => ?_⟩
  have h2 := (h.2 .idl_file_missing (by decide)).2
  exact absurd h2 (by decide)

/-- C9 amended: the CLI exits with 0 on success and a non-zero code on every
parse or IO error with a diagnostic, but the missing-IDL-file and
root-import-lib diagnostics go to standard output instead of the error
stream. -/
theorem C9_amended_cli_exit :
    (generator_main .success).exit_code = 0
    ∧ (∀ e, is_error_event e = true → (generator_main e).exit_code ≠ 0)
    ∧ (∀ e, is_error_event e = true → (generator_main e).message ≠ none)
    ∧ (∀ e, is_error_event e = true → e ≠ .idl_file_missing → e ≠ .root_import_lib_nonempty →
        (generator_main e).message = some .standard_error)
    ∧ (generator_main .idl_file_missing).message = some .standard_out
    ∧ (generator_main .root_import_lib_nonempty).message = some .standard_out := by
  refine ⟨rfl, ?_, ?_, ?_, rfl, rfl⟩
  · intro e he
    cases e <;> simp_all [generator_main, is_error_event]
  · intro e he
    cases e <;> simp_all [generator_main, is_error_event]
  · intro e he h1 h2
    cases e <;> simp_all [generator_main, is_error_event]

/-- Witness for C9 at the argument-parse-error event. -/
theorem C9_witness :
    (generator_main .argument_parse_error).exit_code ≠ 0
    ∧ (generator_main .argument_parse_error).message = some .standard_error :=
  ⟨C9_amended_cli_exit.2.1 .argument_parse_error (by decide),
   C9_amended_cli_exit.2.2.2.1 .argument_parse_error (by decide) (by decide) (by decide)⟩

/-- C5: every C++ type text containing a pointer declarator is projected to
the protobuf type `uint64`, whatever the pointee type. -/
theorem C5_pointer_types_marshal_as_uint64 :
    ∀ s : String, '*' ∈ s.data → cpp_type_to_proto_type s = "uint64" := by
  intro s h
  show String.mk (cpp_type_to_proto_type_chars s.data) = "uint64"
  have hc : cpp_type_to_proto_type_chars s.data = cs "uint64" := by
    show cpp_type_to_proto_type_fuel (s.data.length + 1) s.data = cs "uint64"
    show cpp_type_to_proto_type_step (cpp_type_to_proto_type_fuel s.data.length) s.data
      = cs "uint64"
    exact cpp_type_to_proto_type_step_pointer _ _ h
  rw [hc]

/-- Witness for C5 at the pointer types named by the claim. -/
theorem C5_witness :
    ('*' ∈ "char*".data ∧ cpp_type_to_proto_type "char*" = "uint64")
    ∧ ('*' ∈ "const char*".data ∧ cpp_type_to_proto_type "const char*" = "uint64") :=
  ⟨⟨by decide, C5_pointer_types_marshal_as_uint64 "char*" (by decide)⟩,
   ⟨by decide, C5_pointer_types_marshal_as_uint64 "const char*" (by decide)⟩⟩

/-- C6 counterexample: `std::vector<int8_t>` has a one-byte element type but
is projected to `repeated int32`, not to the opaque `bytes` type, refuting the
claim for element types outside the four listed texts. -/
theorem C6_counterexample :
    cpp_type_to_proto_type "std::vector<int8_t>" = "repeated int32"
    ∧ cpp_type_to_proto_type "std::vector<int8_t>" ≠ "bytes" :=
  ⟨by decide, by decide⟩

/-- C6 amended: exactly the four element-type texts `uint8_t`,
`unsigned char`, `char` and `signed char` make a vector project to `bytes`;
a vector over any other recognized scalar element type — including the
one-byte `int8_t` — projects to `repeated` followed by that element type's
protobuf scalar type. -/
theorem C6_amended_vector_projection :
    cpp_type_to_proto_type "std::vector<uint8_t>" = "bytes"
    ∧ cpp_type_to_proto_type "std::vector<unsigned char>" = "bytes"
    ∧ cpp_type_to_proto_type "std::vector<char>" = "bytes"
    ∧ cpp_type_to_proto_type "std::vector<signed char>" = "bytes"
    ∧ ∀ ty : List Char, cpp_scalar_to_proto_type ty ≠ [] →
        ty.contains '*' = false →
        (cs "std::vector<" ++ ty ++ cs ">") ∉ byte_vector_texts →
        cpp_type_to_proto_type_chars (cs "std::vector<" ++ ty ++ cs ">")
          = cs "repeated " ++ cpp_scalar_to_proto_type ty := by
  refine ⟨by decide, by decide, by decide, by decide, ?_⟩
  intro ty h hstar hbyte
  have hmem := scalar_domain_complete ty h
  fin_cases hmem <;> first | decide | (revert hstar; decide) | (revert hbyte; decide)

/-- Witness for C6 at the element type `int32_t`. -/
theorem C6_witness :
    cpp_type_to_proto_type_chars (cs "std::vector<" ++ cs "int32_t" ++ cs ">")
      = cs "repeated " ++ cpp_scalar_to_proto_type (cs "int32_t") :=
  C6_amended_vector_projection.2.2.2.2 (cs "int32_t") (by decide) (by decide) (by decide)

/-- C8 counterexample: on the empty input string `sanitize_type_name` returns
the empty string, which does not begin with a letter or underscore, refuting
the claim's universal quantification over all input strings. -/
theorem C8_counterexample :
    sanitize_type_name_str "" = ""
    ∧ ¬ ∃ d rest, sanitize_type_name (cs "") = d :: rest
        ∧ (is_ascii_alpha d = true ∨ d = '_') := by
  constructor
  · rfl
  · rintro ⟨d, rest, hd, -⟩
    have hnil : sanitize_type_name (cs "") = [] := rfl
    rw [hnil] at hd
    exact List.cons_ne_nil d rest hd.symm

/-- C8 amended: for every non-empty input, `sanitize_type_name` replaces the
left-to-right occurrences of "::" with ".", replaces every other character
that is not alphanumeric, underscore or dot with an underscore, and returns an
identifier beginning with a letter or underscore; the empty string maps to the
empty string. -/
theorem C8_amended_sanitization :
    sanitize_type_name_str "rpc::encoding" = "rpc.encoding"
    ∧ sanitize_type_name_str "a::b::c<d>" = "a.b.c_d_"
    ∧ (∀ s : List Char, ∀ c ∈ sanitize_type_name s,
        (is_ascii_alnum c || c == '_' || c == '.') = true)
    ∧ (∀ s : List Char, s ≠ [] → ∃ d rest, sanitize_type_name s = d :: rest
        ∧ (is_ascii_alpha d = true ∨ d = '_')) := by
  refine ⟨by decide, by decide, ?_, ?_⟩
  · intro s c hc
    simp only [sanitize_type_name, List.mem_map] at hc
    obtain ⟨a, _, rfl⟩ := hc
    by_cases hcond : (!is_ascii_alnum a && a != '_' && a != '.') = true
    · rw [if_pos hcond]
      decide
    · rw [if_neg hcond]
      by_cases h1 : is_ascii_alnum a = true
      · simp [h1]
      · by_cases h2 : a = '_'
        · simp [h2]
        · have h3 : a = '.' := by
            by_contra h3
            exact hcond (by simp [h1, h2, h3])
          simp [h3]
  · intro s hs
    have h1 : replace_double_colon s ≠ [] := replace_double_colon_ne_nil s hs
    rcases hrd : replace_double_colon s with _ | ⟨d, ds⟩
    · exact absurd hrd h1
    · by_cases hcond : (!is_ascii_alpha d && d != '_') = true
      · refine ⟨'_', (d :: ds).map
          (fun c => if !is_ascii_alnum c && c != '_' && c != '.' then '_' else c),
          ?_, Or.inr rfl⟩
        simp only [sanitize_type_name, hrd, hcond, if_pos, List.map_cons]
        rfl
      · have hd : is_ascii_alpha d = true ∨ d = '_' := by
          by_cases ha : is_ascii_alpha d = true
          · exact Or.inl ha
          · right
            by_contra hne
            exact hcond (by simp [ha, hne])
        have hfd : (if (!is_ascii_alnum d && d != '_' && d != '.') = true then '_' else d)
            = d := by
          rcases hd with ha | ha
          · have halnum : is_ascii_alnum d = true := by simp [is_ascii_alnum, ha]
            rw [if_neg]
            simp [halnum]
          · rw [if_neg]
            simp [ha]
        refine ⟨d, ds.map
          (fun c => if !is_ascii_alnum c && c != '_' && c != '.' then '_' else c),
          ?_, hd⟩
        simp only [sanitize_type_name, hrd, hcond]
        simp [hfd]
        intro h1 h2 _
        rcases hd with ha | ha
        · simp [is_ascii_alnum, ha] at h1
        · exact absurd ha h2

/-- Witness for C8 at concrete inputs: a character of a sanitized name obeys
the alphabet property, and a name starting with a digit gains a leading
underscore. -/
theorem C8_witness :
    ((is_ascii_alnum 'v' || 'v' == '_' || 'v' == '.') = true)
    ∧ (∃ d rest, sanitize_type_name (cs "9zone") = d :: rest
        ∧ (is_ascii_alpha d = true ∨ d = '_')) :=
  ⟨C8_amended_sanitization.2.2.1 (cs "v1") 'v' (by decide),
   C8_amended_sanitization.2.2.2 (cs "9zone") (by decide)⟩

/-- C7: evaluating the enum emission on `enum E { a = 0, b = 5, c }` shows the
code emitting `E_c = 0` — the implicit-value counter ignores explicit values —
while the declared numeric value of `c` under C++ enumerator semantics is 6
(and the emitted 0 collides with `E_a = 0`). -/
theorem C7_enum_implicit_value_lost :
    protobuf_enum_entries "E" [⟨"a", "0"⟩, ⟨"b", "5"⟩, ⟨"c", ""⟩]
      = [("E_a", "0"), ("E_b", "5"), ("E_c", "0")]
    ∧ idl_enum_values [⟨"a", "0"⟩, ⟨"b", "5"⟩, ⟨"c", ""⟩] 0
      = [("a", 0), ("b", 5), ("c", 6)] := by
  exact ⟨by decide, by decide⟩

end Canopy
